import Mathlib

/-!
# Verification of the reversehttp core

A shallow embedding of the `reversehttp` package (Go): the per-session
poll handler `Server.ServeHTTP`, the session operations `Session.Close`
and `Session.RoundTrip`, the client-side response writer
(`ResponseWriter.Write` / `ResponseWriter.WriteHeader`) and one step of
the client loop `ConnectAndServe`.

External collaborators of the code (the Go standard library's
`time.ParseDuration`, `time.Duration.String`, `http.StatusText`, the
HTTP message serializer `http.Request.Write`, and the response decoder
`http.ReadResponse`) are taken as parameters or as oracle inputs: the
handler branches on their success or failure exactly as the source does.

Go channel semantics that the code relies on are made explicit:
closing an already-closed channel panics; a send on a one-shot reply
channel is recorded as a delivery event so that delivery counts can be
stated over whole traces.
-/

namespace ReverseHttp

/-- A Go runtime panic observable from the modelled operations. -/
inductive GoPanic where
  | closeOfClosedChannel
deriving DecidableEq, Repr

/-- Identity of a one-shot reply channel (`chan Response`). -/
abbrev ChanId := Nat

/-- `type Request struct { HTTP *http.Request; Response chan Response }`:
the originating HTTP request is abstracted to an identity `httpId`, the
one-shot reply channel to its identity `responseCh`. -/
structure Request where
  httpId : Nat
  responseCh : ChanId
deriving DecidableEq, Repr

/-- `type Session struct`: the `PendingRequest` slot, plus the
closed-ness of the two channels `closed` and `Requests`.  The
`handlerMu` mutex and the idle `closer` timer serialize and bound the
handler externally; the per-poll state they guard is modelled here. -/
structure Session where
  PendingRequest : Option Request
  closedClosed : Bool
  requestsClosed : Bool
deriving DecidableEq, Repr

/-- A fresh session as built by `ServeHTTP` on first contact:
`closed: make(chan struct{}), Requests: make(chan Request)`. -/
def Session.new : Session :=
  { PendingRequest := none, closedClosed := false, requestsClosed := false }

/-- `func (s *Session) Close() { close(s.closed); close(s.Requests) }`.
In Go, `close` of an already-closed channel panics; the two closes are
performed in source order. -/
def Session.Close (s : Session) : Except GoPanic Session :=
  if s.closedClosed then
    Except.error GoPanic.closeOfClosedChannel
  else
    let s1 : Session := { s with closedClosed := true }
    if s1.requestsClosed then
      Except.error GoPanic.closeOfClosedChannel
    else
      Except.ok { s1 with requestsClosed := true }

/-- `var ErrSessionClosed = errors.New("session closed")` -/
def ErrSessionClosed : String := "session closed"

/-- The non-blocking closed-check at the top of `Session.RoundTrip`:
`select { case <-s.closed: return nil, ErrSessionClosed; default: }`.
Receiving from a closed channel succeeds immediately, so the check
fires exactly when `closed` has been closed. -/
def Session.roundTripClosedCheck (s : Session) : Option String :=
  if s.closedClosed then some ErrSessionClosed else none

/-- Whether a poll handler's receive `req, ok := <-session.Requests`
can still observe `ok = true`: impossible once `Requests` is closed
(a receive on a closed channel yields the zero value and `ok = false`). -/
def Session.canReceiveRequest (s : Session) : Bool :=
  !s.requestsClosed

/-! ## Poll-timeout resolution (`ServeHTTP`, the block computing `timeout`) -/

/-- `time.Minute` in nanoseconds, the base poll timeout. -/
def timeMinute : Int := 60000000000

/-- The exact `X-Error` value the handler sets on an unparseable
`X-Timeout` header. -/
def xTimeoutParseError : String := "cannot parse duration in X-Timeout header"

/-- The exact `X-Warning` value for a timeout above the maximum;
`durStr` stands for Go's `time.Duration.String`. -/
def warningTooHigh (durStr : Int → String) (maxT : Int) : String :=
  "timeout value too high, forcing to maximum " ++ durStr maxT

/-- The exact `X-Warning` value for a timeout below the minimum. -/
def warningTooLow (durStr : Int → String) (minT : Int) : String :=
  "timeout value too low, forcing to minimum " ++ durStr minT

/-- Result of the timeout-resolution block: either a `400` answer with
the `X-Error` message, or an effective timeout together with the
`X-Warning` values added along the way (in emission order). -/
inductive TimeoutResolution where
  | badRequest (xError : String)
  | resolved (timeout : Int) (warnings : List String)
deriving DecidableEq, Repr

/-- The candidate timeout before clamping: `time.Minute` when the
`X-Timeout` header is absent or empty, otherwise the result of
`time.ParseDuration` on it (`none` = parse failure). -/
def timeoutCandidate (parseDur : String → Option Int)
    (hdr : Option String) : Option Int :=
  match hdr with
  | none => some timeMinute
  | some s =>
    if s = "" then some timeMinute
    else parseDur s

/-- The block at the middle of `ServeHTTP` computing the polling
timeout.  `parseDur` stands for Go's `time.ParseDuration` (`none` on
parse failure); `hdr` is `r.Header.Get("X-Timeout")` where Go's `Get`
returns `""` for an absent header, kept here as an `Option` with the
source's explicit `!= ""` guard applied to present values.

Mirrors: start from `time.Minute`; overwrite with the parsed header
when present and non-empty (400 + X-Error on parse failure); then cap
at `LongPollMaxTimeout` with a warning, then raise to
`LongPollMinTimeout` with a warning, in that order. -/
def resolveTimeout (parseDur : String → Option Int) (durStr : Int → String)
    (minT maxT : Int) (hdr : Option String) : TimeoutResolution :=
  match timeoutCandidate parseDur hdr with
  | none => TimeoutResolution.badRequest xTimeoutParseError
  | some t =>
    let capped : Int × List String :=
      if t > maxT then (maxT, [warningTooHigh durStr maxT]) else (t, [])
    let raised : Int × List String :=
      if capped.1 < minT then (minT, capped.2 ++ [warningTooLow durStr minT])
      else (capped.1, capped.2)
    TimeoutResolution.resolved raised.1 raised.2

/-- The warnings that the two sequential clamping steps of the source
emit for a candidate timeout `cand`: the too-high warning when `cand`
exceeds the maximum, then the too-low warning when the capped value is
still below the minimum. -/
def clampWarnings (durStr : Int → String) (minT maxT cand : Int) :
    List String :=
  (if maxT < cand then [warningTooHigh durStr maxT] else []) ++
  (if min maxT cand < minT then [warningTooLow durStr minT] else [])

/-! ## The rendezvous select and the whole per-session handler body -/

/-- A delivery action on a one-shot reply channel performed by the
handler: a send of `Response{HTTP: resp}`, a send of
`Response{Err: err}`, or a `close` of the channel. -/
inductive ReplyEvent where
  | sendResponse (ch : ChanId) (respId : Nat)
  | sendError (ch : ChanId) (e : String)
  | closeChannel (ch : ChanId)
deriving DecidableEq, Repr

/-- Which arm of the final `select` fires: the `time.After` timer, a
successful receive of a pending-originator, or the `Requests` channel
observed closed (`ok = false`). -/
inductive REvent where
  | timerElapsed
  | recv (req : Request)
  | requestsChClosed
deriving DecidableEq, Repr

/-- Result of `http.ReadResponse` on the poll body (consulted only when
the pending slot is non-empty): a decoded response identity or an
error. -/
inductive DecodeResult where
  | ok (respId : Nat)
  | err (e : String)
deriving DecidableEq, Repr

/-- The oracle inputs of one poll: the body-decode outcome, the
`X-Timeout` header, the select arm that fires, and the outcome of
`req.HTTP.Write(w)` (`none` = success, `some e` = I/O error). -/
structure PollInput where
  body : DecodeResult
  xTimeout : Option String
  event : REvent
  writeErr : Option String
deriving DecidableEq, Repr

/-- The observable answer of one poll: the status written, the headers
added (`X-Error`, `X-Warning`, `Content-Type`), the envelope body when
one was fully written, the effective timeout handed to `time.After`
(when the rendezvous phase was reached), and the reply-channel
deliveries performed. -/
structure PollOutput where
  status : Nat
  headers : List (String × String)
  body : Option String
  timeoutUsed : Option Int
  events : List ReplyEvent
deriving DecidableEq, Repr

/-- The final `select` of `ServeHTTP` (the rendezvous phase).
`serialize` stands for `http.Request.Write`'s byte output;
`pending0` is the pending slot as left by the drain phase.
- timer: `w.WriteHeader(204); return`;
- receive with `ok = false`: `w.WriteHeader(410); return`;
- receive of `req`: add `Content-Type: application/x-http-request`
  (the source spells the key `Content-type`; Go canonicalizes it),
  write `200`, then `req.HTTP.Write(w)`; on write error deliver the
  error on `req.Response` and return without recording `pending`;
  on success record `session.PendingRequest = &req`. -/
def rendezvous (serialize : Nat → String) (ev : REvent)
    (writeErr : Option String) (pending0 : Option Request) :
    (Option Request) × PollOutput :=
  match ev with
  | REvent.timerElapsed =>
    (pending0,
     { status := 204, headers := [], body := none, timeoutUsed := none,
       events := [] })
  | REvent.requestsChClosed =>
    (pending0,
     { status := 410, headers := [], body := none, timeoutUsed := none,
       events := [] })
  | REvent.recv req =>
    match writeErr with
    | some e =>
      (pending0,
       { status := 200,
         headers := [("Content-Type", "application/x-http-request")],
         body := none, timeoutUsed := none,
         events := [ReplyEvent.sendError req.responseCh e] })
    | none =>
      (some req,
       { status := 200,
         headers := [("Content-Type", "application/x-http-request")],
         body := some (serialize req.httpId), timeoutUsed := none,
         events := [] })

/-- Phases 2 and 3 of the per-session body of `Server.ServeHTTP`
(after the response drain): timeout resolution (see `resolveTimeout`;
on parse failure add `X-Error`, answer `400` and return), then the
rendezvous select.  `s1` is the session as the drain phase left it,
`pre` the deliveries the drain phase performed. -/
def servePollPhase (parseDur : String → Option Int) (durStr : Int → String)
    (serialize : Nat → String) (minT maxT : Int)
    (s1 : Session) (pre : List ReplyEvent) (inp : PollInput) :
    Session × PollOutput :=
  match resolveTimeout parseDur durStr minT maxT inp.xTimeout with
  | TimeoutResolution.badRequest msg =>
    (s1, { status := 400, headers := [("X-Error", msg)], body := none,
           timeoutUsed := none, events := pre })
  | TimeoutResolution.resolved t warns =>
    let r := rendezvous serialize inp.event inp.writeErr s1.PendingRequest
    ({ s1 with PendingRequest := r.1 },
     { status := r.2.status,
       headers := warns.map (fun w => ("X-Warning", w)) ++ r.2.headers,
       body := r.2.body,
       timeoutUsed := some t,
       events := pre ++ r.2.events })

/-- The per-session body of `Server.ServeHTTP` (after session binding,
lock acquisition and idle-timer reset):

1. response drain: if `PendingRequest != nil`, decode the poll body;
   on error send `Response{Err}` on the pending originator's channel,
   answer `400` and return — the source does NOT clear
   `PendingRequest` nor close the channel on this branch; on success
   send the response, close the channel, clear the slot;
2. timeout resolution and 3. rendezvous (see `servePollPhase`). -/
def serveHTTP (parseDur : String → Option Int) (durStr : Int → String)
    (serialize : Nat → String) (minT maxT : Int)
    (s : Session) (inp : PollInput) : Session × PollOutput :=
  match s.PendingRequest with
  | none => servePollPhase parseDur durStr serialize minT maxT s [] inp
  | some p =>
    match inp.body with
    | DecodeResult.err e =>
      (s, { status := 400, headers := [], body := none,
            timeoutUsed := none,
            events := [ReplyEvent.sendError p.responseCh e] })
    | DecodeResult.ok respId =>
      servePollPhase parseDur durStr serialize minT maxT
        { s with PendingRequest := none }
        [ReplyEvent.sendResponse p.responseCh respId,
         ReplyEvent.closeChannel p.responseCh] inp

/-- The `X-Warning` values among a poll answer's headers, in order. -/
def xWarnings (out : PollOutput) : List String :=
  (out.headers.filter (fun p => p.1 = "X-Warning")).map (fun p => p.2)

/-! ## Traces over one session

A session's lifetime, as far as reply-channel deliveries are
concerned, is a sequence of polls handled under the session's
`handlerMu` plus calls to `Close` (from the idle timer or the server's
user).  The trace records every delivery performed. -/

/-- One operation on a session. -/
inductive Op where
  | poll (inp : PollInput)
  | close
deriving DecidableEq, Repr

/-- A session together with the log of reply-channel deliveries
performed so far. -/
structure World where
  sess : Session
  log : List ReplyEvent
deriving DecidableEq, Repr

/-- Execute one operation: a poll runs the handler body and appends its
deliveries to the log; `close` runs `Session.Close` (which can panic). -/
def stepOp (parseDur : String → Option Int) (durStr : Int → String)
    (serialize : Nat → String) (minT maxT : Int)
    (w : World) : Op → Except GoPanic World
  | Op.poll inp =>
    let r := serveHTTP parseDur durStr serialize minT maxT w.sess inp
    Except.ok { sess := r.1, log := w.log ++ r.2.events }
  | Op.close =>
    (w.sess.Close).map (fun s => { sess := s, log := w.log })

/-- Execute a whole trace of operations. -/
def runTrace (parseDur : String → Option Int) (durStr : Int → String)
    (serialize : Nat → String) (minT maxT : Int)
    (w : World) : List Op → Except GoPanic World
  | [] => Except.ok w
  | op :: rest =>
    match stepOp parseDur durStr serialize minT maxT w op with
    | Except.error p => Except.error p
    | Except.ok w1 => runTrace parseDur durStr serialize minT maxT w1 rest

/-- How many times a given one-shot reply channel received a value
(a response or an error); channel closes are not sends. -/
def deliveryCount (log : List ReplyEvent) (ch : ChanId) : Nat :=
  (log.filter (fun e =>
    match e with
    | ReplyEvent.sendResponse c _ => c = ch
    | ReplyEvent.sendError c _ => c = ch
    | ReplyEvent.closeChannel _ => false)).length

/-! ## The client-side `ResponseWriter` -/

/-- `type ResponseWriter struct { w io.WriteCloser; header http.Header;
headerSent bool }`: the sink accumulates every byte written to `rw.w`,
the header map is a list of (name, value) pairs in emission order. -/
structure ResponseWriter where
  sink : String
  header : List (String × String)
  headerSent : Bool
deriving DecidableEq, Repr

/-- `fmt.Fprintf(rw.w, "HTTP/1.1 %d %s\r\n", statusCode,
http.StatusText(statusCode))`; `statusText` stands for Go's
`http.StatusText`. -/
def statusLine (statusText : Nat → String) (code : Nat) : String :=
  "HTTP/1.1 " ++ toString code ++ " " ++ statusText code ++ "\r\n"

/-- `rw.header.Write(rw.w)`: one `Name: Value\r\n` line per header
pair. -/
def headerBlock (h : List (String × String)) : String :=
  (h.map (fun p => p.1 ++ ": " ++ p.2 ++ "\r\n")).foldl (fun a b => a ++ b) ""

/-- `func (rw *ResponseWriter) WriteHeader(statusCode int)`: if headers
were not yet sent, emit the status line, the header block and a blank
line, and mark them sent; otherwise do nothing. -/
def ResponseWriter.WriteHeader (statusText : Nat → String)
    (rw : ResponseWriter) (statusCode : Nat) : ResponseWriter :=
  if rw.headerSent then rw
  else
    { rw with
      sink := rw.sink ++ statusLine statusText statusCode
                ++ headerBlock rw.header ++ "\r\n",
      headerSent := true }

/-- `func (rw *ResponseWriter) Write(b []byte)`: force header emission
with default status `200` on first byte, then write the body bytes. -/
def ResponseWriter.Write (statusText : Nat → String)
    (rw : ResponseWriter) (b : String) : ResponseWriter :=
  let rw1 := if rw.headerSent then rw else rw.WriteHeader statusText 200
  { rw1 with sink := rw1.sink ++ b }

/-- One call on the response writer. -/
inductive RWOp where
  | write (b : String)
  | writeHeader (code : Nat)
deriving DecidableEq, Repr

/-- Run a sequence of calls on the response writer. -/
def runRW (statusText : Nat → String) (rw : ResponseWriter) :
    List RWOp → ResponseWriter
  | [] => rw
  | RWOp.write b :: rest => runRW statusText (rw.Write statusText b) rest
  | RWOp.writeHeader c :: rest =>
    runRW statusText (rw.WriteHeader statusText c) rest

/-- The body bytes passed to `Write` calls, in order. -/
def writePayloads : List RWOp → String
  | [] => ""
  | RWOp.write b :: rest => b ++ writePayloads rest
  | RWOp.writeHeader _ :: rest => writePayloads rest

/-! ## One step of the client loop (`ConnectAndServe`) -/

/-- The part of a poll response that the loop dispatches on:
`resp.StatusCode`, `resp.Status` (the literal status line, e.g.
`"418 I'm a teapot"`), and `resp.Header.Get("X-Session")`. -/
structure PollResponse where
  statusCode : Nat
  statusLine : String
  xSession : String
deriving DecidableEq, Repr

/-- What one loop iteration does with a poll response. -/
inductive ClientStep where
  | nextPoll (xSession : String) (hasBody : Bool)
  | exitLoop (errMsg : String)
  | decodeTunneled (xSession : String)
deriving DecidableEq, Repr

/-- The dispatch at the top of the `for` loop in `ConnectAndServe`:
capture `X-Session`; on `204` issue the next empty-bodied POST with
the stored session header; on `410` return `ErrSessionClosed`; on any
other non-`200` status return `fmt.Errorf("%s", resp.Status)`; on
`200` proceed to `http.ReadRequest` on the body. -/
def connectAndServeStep (resp : PollResponse) : ClientStep :=
  let sessionID := resp.xSession
  if resp.statusCode = 204 then ClientStep.nextPoll sessionID false
  else if resp.statusCode = 410 then ClientStep.exitLoop ErrSessionClosed
  else if resp.statusCode ≠ 200 then ClientStep.exitLoop resp.statusLine
  else ClientStep.decodeTunneled sessionID

/-! ## Concrete instantiations of the external collaborators, used to
evaluate the model at concrete inputs -/

/-- A duration parser that rejects every string. -/
def parse0 : String → Option Int := fun _ => none

/-- A concrete duration formatter standing for `Duration.String`. -/
def dur0 : Int → String := fun t => toString t

/-- A concrete request serializer standing for `http.Request.Write`. -/
def ser0 : Nat → String := fun n => "REQ" ++ toString n

/-- A duration parser that parses every string as 7 nanoseconds. -/
def parse7 : String → Option Int := fun _ => some 7

/-- A concrete status-text table standing for `http.StatusText`. -/
def statusText0 : Nat → String := fun c =>
  if c = 200 then "OK" else if c = 418 then "Teapot" else "Other"

/-! ## C1 — the response-drain path on decode failure -/

/-- C1: the claim states that on the response-drain path the pending
slot is cleared before the handler returns on every branch, including
the branch where decoding fails and the poll is answered
`400 Bad Request`.  The source violates this: evaluating the handler
on a session whose pending slot holds the originator (request 1, reply
channel 7) and a poll whose body fails to decode, the poll is answered
`400` and the error is delivered on channel 7, but `PendingRequest` is
left set (and the reply channel is not closed), so the next poll will
send again on the already-consumed one-shot channel: the session is
corrupted, contradicting the claim and the spec's stated policy. -/
theorem serveHTTP_decode_error_leaves_pending :
    serveHTTP parse0 dur0 ser0 0 (2 * timeMinute)
        { PendingRequest := some { httpId := 1, responseCh := 7 },
          closedClosed := false, requestsClosed := false }
        { body := DecodeResult.err "malformed response envelope",
          xTimeout := none, event := REvent.timerElapsed,
          writeErr := none } =
      ({ PendingRequest := some { httpId := 1, responseCh := 7 },
         closedClosed := false, requestsClosed := false },
       { status := 400, headers := [], body := none, timeoutUsed := none,
         events := [ReplyEvent.sendError 7 "malformed response envelope"] }) :=
  rfl

/-! ## C2 — exactly-once delivery of the one-shot reply -/

/-- C2: the claim states that the originator's one-shot reply is
delivered exactly once over the whole lifetime of the
pending-originator (success, decode failure, or session closure).
The source violates the session-closure case: in the complete trace
in which a poll hands the originator (request 1, reply channel 7) to
the reverse client (recording it in `PendingRequest`) and the session
is then closed with no further poll ever arriving (e.g. the idle timer
fired), no delivery is ever made on channel 7 — `Session.Close` sends
nothing to the pending originator, so its `RoundTrip` blocks forever
and the delivery count stays `0`, not `1`. -/
theorem runTrace_close_never_delivers :
    runTrace parse0 dur0 ser0 0 (2 * timeMinute)
        { sess := Session.new, log := [] }
        [Op.poll { body := DecodeResult.ok 0, xTimeout := none,
                   event := REvent.recv { httpId := 1, responseCh := 7 },
                   writeErr := none },
         Op.close] =
      Except.ok
        { sess := { PendingRequest := some { httpId := 1, responseCh := 7 },
                    closedClosed := true, requestsClosed := true },
          log := [] } ∧
    deliveryCount ([] : List ReplyEvent) 7 = 0 :=
  ⟨rfl, rfl⟩

/-! ## C3 — idempotence of `Session.Close` -/

/-- C3 counterexample: the claim states that a second call to `Close`
leaves the session's observable state unchanged, with no failure.  In
the source, `Close` closes the `closed` and `Requests` channels, and
Go panics on `close` of an already-closed channel: calling `Close`
twice on a fresh session panics. -/
theorem close_twice_panics :
    Session.new.Close.bind Session.Close =
      Except.error GoPanic.closeOfClosedChannel :=
  rfl

/-- C3 amended: the closed signal is fired once by the first `Close`;
after it, every `Submit` (`RoundTrip`) fails immediately with the
session-closed error and any take blocked on the `Requests` channel
observes closure — but a second call to `Close` does not leave the
state unchanged without failure: it panics (close of a closed
channel). -/
theorem close_effects (s : Session)
    (h1 : s.closedClosed = false) (h2 : s.requestsClosed = false) :
    ∃ s1, s.Close = Except.ok s1 ∧
      s1.closedClosed = true ∧
      s1.requestsClosed = true ∧
      s1.roundTripClosedCheck = some ErrSessionClosed ∧
      s1.canReceiveRequest = false ∧
      s1.Close = Except.error GoPanic.closeOfClosedChannel := by
  refine ⟨{ s with closedClosed := true, requestsClosed := true }, ?_, rfl, rfl, rfl, rfl, ?_⟩
  · simp [Session.Close, h1, h2]
  · simp [Session.Close]

/-- Witness for C3's amended theorem: the fresh session. -/
theorem close_effects_witness :
    ∃ s1, Session.new.Close = Except.ok s1 ∧
      s1.closedClosed = true ∧
      s1.requestsClosed = true ∧
      s1.roundTripClosedCheck = some ErrSessionClosed ∧
      s1.canReceiveRequest = false ∧
      s1.Close = Except.error GoPanic.closeOfClosedChannel :=
  close_effects Session.new rfl rfl

/-! ## Timeout resolution: characterization lemmas -/

theorem resolveTimeout_of_none (parseDur : String → Option Int)
    (durStr : Int → String) (minT maxT : Int) (hdr : Option String)
    (hc : timeoutCandidate parseDur hdr = none) :
    resolveTimeout parseDur durStr minT maxT hdr =
      TimeoutResolution.badRequest xTimeoutParseError := by
  unfold resolveTimeout
  rw [hc]

theorem resolveTimeout_of_candidate (parseDur : String → Option Int)
    (durStr : Int → String) (minT maxT cand : Int) (hdr : Option String)
    (hc : timeoutCandidate parseDur hdr = some cand) :
    resolveTimeout parseDur durStr minT maxT hdr =
      TimeoutResolution.resolved (max minT (min maxT cand))
        (clampWarnings durStr minT maxT cand) := by
  unfold resolveTimeout clampWarnings
  rw [hc]
  rcases lt_or_ge maxT cand with h1 | h1
  · rcases lt_or_ge maxT minT with h2 | h2
    · have e1 : min maxT cand = maxT := min_eq_left (le_of_lt h1)
      have e2 : max minT maxT = minT := max_eq_left (le_of_lt h2)
      simp [h1, h2, e1, e2, gt_iff_lt]
    · have e1 : min maxT cand = maxT := min_eq_left (le_of_lt h1)
      have e2 : max minT maxT = maxT := max_eq_right h2
      simp [h1, e1, e2, gt_iff_lt, not_lt.mpr h2]
  · rcases lt_or_ge cand minT with h2 | h2
    · have e1 : min maxT cand = cand := min_eq_right h1
      have e2 : max minT cand = minT := max_eq_left (le_of_lt h2)
      simp [not_lt.mpr h1, h2, e1, e2, gt_iff_lt]
    · have e1 : min maxT cand = cand := min_eq_right h1
      have e2 : max minT cand = cand := max_eq_right h2
      simp [not_lt.mpr h1, not_lt.mpr h2, e1, e2, gt_iff_lt]

theorem filter_warning_pairs (warns : List String) :
    (((warns.map fun w => (("X-Warning" : String), w)).filter
        (fun p => p.1 = "X-Warning")).map fun p => p.2) = warns := by
  induction warns with
  | nil => rfl
  | cons a l ih => simp [List.filter_cons, ih]

theorem rendezvous_no_warning (serialize : Nat → String) (ev : REvent)
    (writeErr : Option String) (pending0 : Option Request) :
    ((rendezvous serialize ev writeErr pending0).2.headers).filter
        (fun p => p.1 = "X-Warning") = [] := by
  cases ev <;> cases writeErr <;> simp [rendezvous]

theorem xWarnings_phase (warns : List String) (tl : List (String × String))
    (htl : tl.filter (fun p => p.1 = "X-Warning") = [])
    (st : Nat) (bd : Option String) (tu : Option Int)
    (ev : List ReplyEvent) :
    xWarnings { status := st,
                headers := (warns.map fun w => ("X-Warning", w)) ++ tl,
                body := bd, timeoutUsed := tu, events := ev } = warns := by
  unfold xWarnings
  simp only [List.filter_append, htl, List.append_nil]
  exact filter_warning_pairs warns

theorem servePollPhase_resolved (parseDur : String → Option Int)
    (durStr : Int → String) (serialize : Nat → String) (minT maxT : Int)
    (s1 : Session) (pre : List ReplyEvent) (inp : PollInput) (cand : Int)
    (hc : timeoutCandidate parseDur inp.xTimeout = some cand) :
    (servePollPhase parseDur durStr serialize minT maxT s1 pre inp).2.timeoutUsed
        = some (max minT (min maxT cand)) ∧
    xWarnings (servePollPhase parseDur durStr serialize minT maxT s1 pre inp).2
        = clampWarnings durStr minT maxT cand := by
  unfold servePollPhase
  rw [resolveTimeout_of_candidate parseDur durStr minT maxT cand _ hc]
  exact ⟨rfl, xWarnings_phase _ _ (rendezvous_no_warning _ _ _ _) _ _ _ _⟩

theorem servePollPhase_badRequest (parseDur : String → Option Int)
    (durStr : Int → String) (serialize : Nat → String) (minT maxT : Int)
    (s1 : Session) (pre : List ReplyEvent) (inp : PollInput)
    (hc : timeoutCandidate parseDur inp.xTimeout = none) :
    (servePollPhase parseDur durStr serialize minT maxT s1 pre inp).2.status
        = 400 ∧
    (servePollPhase parseDur durStr serialize minT maxT s1 pre inp).2.headers
        = [("X-Error", xTimeoutParseError)] := by
  unfold servePollPhase
  rw [resolveTimeout_of_none parseDur durStr minT maxT _ hc]
  exact ⟨rfl, rfl⟩

/-! ## C4 — X-Timeout parsing and clamping -/

/-- C4: for every poll that proceeds past the response drain (nothing
was pending, or the pending response decoded successfully), if the
`X-Timeout` header is present and does not parse, the handler answers
`400` with `X-Error: cannot parse duration in X-Timeout header`;
otherwise the effective timeout is the candidate (parsed value, or one
minute when the header is absent) clamped to `[minT, maxT]`, and when
clamping occurs exactly the directional `X-Warning` header is set:
the too-high warning when the candidate exceeds the maximum, the
too-low warning when it is below the minimum, and no warning when it
is in range. -/
theorem serveHTTP_timeout_header_contract
    (parseDur : String → Option Int) (durStr : Int → String)
    (serialize : Nat → String) (minT maxT : Int) (hmm : minT ≤ maxT)
    (s : Session) (inp : PollInput)
    (hreach : s.PendingRequest = none ∨
      ∃ respId, inp.body = DecodeResult.ok respId) :
    (timeoutCandidate parseDur inp.xTimeout = none →
      (serveHTTP parseDur durStr serialize minT maxT s inp).2.status = 400 ∧
      (serveHTTP parseDur durStr serialize minT maxT s inp).2.headers =
        [("X-Error", xTimeoutParseError)]) ∧
    (∀ cand, timeoutCandidate parseDur inp.xTimeout = some cand →
      (serveHTTP parseDur durStr serialize minT maxT s inp).2.timeoutUsed =
        some (max minT (min maxT cand)) ∧
      minT ≤ max minT (min maxT cand) ∧
      max minT (min maxT cand) ≤ maxT ∧
      (maxT < cand →
        max minT (min maxT cand) = maxT ∧
        xWarnings (serveHTTP parseDur durStr serialize minT maxT s inp).2 =
          [warningTooHigh durStr maxT]) ∧
      (cand < minT →
        max minT (min maxT cand) = minT ∧
        xWarnings (serveHTTP parseDur durStr serialize minT maxT s inp).2 =
          [warningTooLow durStr minT]) ∧
      (minT ≤ cand → cand ≤ maxT →
        max minT (min maxT cand) = cand ∧
        xWarnings (serveHTTP parseDur durStr serialize minT maxT s inp).2 =
          [])) := by
  obtain ⟨s1, pre, hs⟩ : ∃ s1 pre,
      serveHTTP parseDur durStr serialize minT maxT s inp =
        servePollPhase parseDur durStr serialize minT maxT s1 pre inp := by
    rcases hp : s.PendingRequest with _ | p
    · refine ⟨s, [], ?_⟩
      unfold serveHTTP
      rw [hp]
    · rcases hreach with h | ⟨respId, hb⟩
      · rw [h] at hp
        exact Option.noConfusion hp
      · refine ⟨{ s with PendingRequest := none },
          [ReplyEvent.sendResponse p.responseCh respId,
           ReplyEvent.closeChannel p.responseCh], ?_⟩
        unfold serveHTTP
        rw [hp, hb]
  constructor
  · intro hc
    rw [hs]
    exact servePollPhase_badRequest parseDur durStr serialize minT maxT
      s1 pre inp hc
  · intro cand hc
    rw [hs]
    obtain ⟨h1, h2⟩ :=
      servePollPhase_resolved parseDur durStr serialize minT maxT s1 pre inp
        cand hc
    refine ⟨h1, le_max_left _ _, by omega, ?_, ?_, ?_⟩
    · intro hhi
      refine ⟨by omega, ?_⟩
      rw [h2]
      unfold clampWarnings
      have h4 : ¬ (min maxT cand < minT) := by omega
      simp [hhi, h4]
    · intro hlo
      refine ⟨by omega, ?_⟩
      rw [h2]
      unfold clampWarnings
      have h3 : ¬ (maxT < cand) := by omega
      have h4 : min maxT cand < minT := by omega
      simp [h3, h4]
    · intro hge hle
      refine ⟨by omega, ?_⟩
      rw [h2]
      unfold clampWarnings
      have h3 : ¬ (maxT < cand) := by omega
      have h4 : ¬ (min maxT cand < minT) := by omega
      simp [h3, h4]

/-- Witness for C4 at `minT = 10`, `maxT = 100`: an unparseable header
is answered `400` with the `X-Error` header, and a parsed candidate of
`7` is raised to the minimum with the too-low warning. -/
theorem serveHTTP_timeout_header_contract_witness :
    ((serveHTTP parse0 dur0 ser0 10 100 Session.new
        { body := DecodeResult.ok 0, xTimeout := some "x",
          event := REvent.timerElapsed, writeErr := none }).2.status = 400 ∧
     (serveHTTP parse0 dur0 ser0 10 100 Session.new
        { body := DecodeResult.ok 0, xTimeout := some "x",
          event := REvent.timerElapsed, writeErr := none }).2.headers =
        [("X-Error", xTimeoutParseError)]) ∧
    (max 10 (min 100 7) = (10 : Int) ∧
     xWarnings (serveHTTP parse7 dur0 ser0 10 100 Session.new
        { body := DecodeResult.ok 0, xTimeout := some "7ns",
          event := REvent.timerElapsed, writeErr := none }).2 =
       [warningTooLow dur0 10]) :=
  ⟨(serveHTTP_timeout_header_contract parse0 dur0 ser0 10 100 (by decide)
      Session.new
      { body := DecodeResult.ok 0, xTimeout := some "x",
        event := REvent.timerElapsed, writeErr := none } (Or.inl rfl)).1 rfl,
   ((serveHTTP_timeout_header_contract parse7 dur0 ser0 10 100 (by decide)
      Session.new
      { body := DecodeResult.ok 0, xTimeout := some "7ns",
        event := REvent.timerElapsed, writeErr := none }
      (Or.inl rfl)).2 7 rfl).2.2.2.2.1
     (by decide)⟩

/-! ## C9 — clamp order: cap at the maximum, then raise to the minimum -/

/-- C9: for every poll that proceeds past the response drain, whose
candidate timeout is defined (parsed `X-Timeout`, or one minute when
the header
is absent or empty — `timeoutCandidate` with no header is one minute),
the effective wait handed to `time.After` is the candidate first
capped at `maxT` and then raised to `minT`, with the warnings of the
two sequential clamping steps; consequently when `maxT < minT` the
effective timeout is always `minT`, and both warning headers are
emitted when the candidate additionally exceeds `maxT`. -/
theorem serveHTTP_clamp_order
    (parseDur : String → Option Int) (durStr : Int → String)
    (serialize : Nat → String) (minT maxT : Int)
    (s : Session) (inp : PollInput)
    (hreach : s.PendingRequest = none ∨
      ∃ respId, inp.body = DecodeResult.ok respId)
    (cand : Int)
    (hc : timeoutCandidate parseDur inp.xTimeout = some cand) :
    (serveHTTP parseDur durStr serialize minT maxT s inp).2.timeoutUsed =
      some (max minT (min maxT cand)) ∧
    xWarnings (serveHTTP parseDur durStr serialize minT maxT s inp).2 =
      clampWarnings durStr minT maxT cand ∧
    timeoutCandidate parseDur none = some timeMinute ∧
    (maxT < minT →
      (serveHTTP parseDur durStr serialize minT maxT s inp).2.timeoutUsed =
        some minT) ∧
    (maxT < minT → maxT < cand →
      xWarnings (serveHTTP parseDur durStr serialize minT maxT s inp).2 =
        [warningTooHigh durStr maxT, warningTooLow durStr minT]) := by
  obtain ⟨s1, pre, hs⟩ : ∃ s1 pre,
      serveHTTP parseDur durStr serialize minT maxT s inp =
        servePollPhase parseDur durStr serialize minT maxT s1 pre inp := by
    rcases hp : s.PendingRequest with _ | p
    · refine ⟨s, [], ?_⟩
      unfold serveHTTP
      rw [hp]
    · rcases hreach with h | ⟨respId, hb⟩
      · rw [h] at hp
        exact Option.noConfusion hp
      · refine ⟨{ s with PendingRequest := none },
          [ReplyEvent.sendResponse p.responseCh respId,
           ReplyEvent.closeChannel p.responseCh], ?_⟩
        unfold serveHTTP
        rw [hp, hb]
  rw [hs]
  obtain ⟨h1, h2⟩ :=
    servePollPhase_resolved parseDur durStr serialize minT maxT s1 pre inp
      cand hc
  refine ⟨h1, h2, rfl, ?_, ?_⟩
  · intro hmm
    rw [h1]
    have e : max minT (min maxT cand) = minT := by omega
    rw [e]
  · intro hmm hhi
    rw [h2]
    unfold clampWarnings
    have h4 : min maxT cand < minT := by omega
    simp [hhi, h4]

/-- Witness for C9 at `minT = 5`, `maxT = 3` (minimum above maximum)
with no `X-Timeout` header: the one-minute candidate is capped to 3
and then raised to 5, and both warnings are emitted. -/
theorem serveHTTP_clamp_order_witness :
    (serveHTTP parse0 dur0 ser0 5 3 Session.new
        { body := DecodeResult.ok 0, xTimeout := none,
          event := REvent.timerElapsed, writeErr := none }).2.timeoutUsed =
      some 5 ∧
    xWarnings (serveHTTP parse0 dur0 ser0 5 3 Session.new
        { body := DecodeResult.ok 0, xTimeout := none,
          event := REvent.timerElapsed, writeErr := none }).2 =
      [warningTooHigh dur0 3, warningTooLow dur0 5] := by
  have h := serveHTTP_clamp_order parse0 dur0 ser0 5 3 Session.new
      { body := DecodeResult.ok 0, xTimeout := none,
        event := REvent.timerElapsed, writeErr := none }
      (Or.inl rfl) timeMinute rfl
  exact ⟨h.2.2.2.1 (by decide), h.2.2.2.2 (by decide) (by decide)⟩

/-! ## C5 — the rendezvous outcomes -/

/-- C5 counterexample: the claim states that every poll reaching the
rendezvous ends in exactly one of three outcomes (204; 200 with the
serialized request recorded in pending; 410).  When the originator is
received but writing the serialized request fails, none of the three
holds: the status is `200` (already written) but the body is aborted,
the error is delivered to the originator and the pending slot is not
recorded.  Concretely, for the receive of originator (request 1, reply
channel 7) with a failing write. -/
theorem rendezvous_three_outcomes_false :
    ¬ ((rendezvous ser0 (REvent.recv { httpId := 1, responseCh := 7 })
          (some "broken pipe") none).2.status = 204 ∨
       ((rendezvous ser0 (REvent.recv { httpId := 1, responseCh := 7 })
          (some "broken pipe") none).2.status = 200 ∧
        (rendezvous ser0 (REvent.recv { httpId := 1, responseCh := 7 })
          (some "broken pipe") none).2.body = some (ser0 1) ∧
        (rendezvous ser0 (REvent.recv { httpId := 1, responseCh := 7 })
          (some "broken pipe") none).1 =
            some { httpId := 1, responseCh := 7 }) ∨
       (rendezvous ser0 (REvent.recv { httpId := 1, responseCh := 7 })
          (some "broken pipe") none).2.status = 410) := by
  decide

/-- C5 amended: every poll reaching the rendezvous ends in exactly one
of FOUR outcomes: the timer elapses and the poll is answered `204`;
the `Requests` channel is observed closed and the poll is answered
`410`; an originator is received, its request serializes, and the poll
is answered `200` with `Content-Type: application/x-http-request` and
body the serialized request, the originator recorded in the pending
slot; or an originator is received but writing its request fails, in
which case the error is delivered on the originator's reply channel
and the response is aborted after the `200` status, the pending slot
not recorded. -/
theorem rendezvous_outcomes (serialize : Nat → String) (ev : REvent)
    (writeErr : Option String) (pending0 : Option Request) :
    (ev = REvent.timerElapsed ∧
      rendezvous serialize ev writeErr pending0 =
        (pending0, { status := 204, headers := [], body := none,
                     timeoutUsed := none, events := [] })) ∨
    (ev = REvent.requestsChClosed ∧
      rendezvous serialize ev writeErr pending0 =
        (pending0, { status := 410, headers := [], body := none,
                     timeoutUsed := none, events := [] })) ∨
    (∃ req, ev = REvent.recv req ∧ writeErr = none ∧
      rendezvous serialize ev writeErr pending0 =
        (some req,
         { status := 200,
           headers := [("Content-Type", "application/x-http-request")],
           body := some (serialize req.httpId), timeoutUsed := none,
           events := [] })) ∨
    (∃ req e, ev = REvent.recv req ∧ writeErr = some e ∧
      rendezvous serialize ev writeErr pending0 =
        (pending0,
         { status := 200,
           headers := [("Content-Type", "application/x-http-request")],
           body := none, timeoutUsed := none,
           events := [ReplyEvent.sendError req.responseCh e] })) := by
  cases ev with
  | timerElapsed => exact Or.inl ⟨rfl, rfl⟩
  | recv req =>
    cases writeErr with
    | none => exact Or.inr (Or.inr (Or.inl ⟨req, rfl, rfl, rfl⟩))
    | some e => exact Or.inr (Or.inr (Or.inr ⟨req, e, rfl, rfl, rfl⟩))
  | requestsChClosed => exact Or.inr (Or.inl ⟨rfl, rfl⟩)

/-! ## C6 — client loop dispatch on the poll response status -/

/-- C6: in `ConnectAndServe`, a `204` answer leads to the next POST
with the captured `X-Session` and no body; a `410` terminates the loop
with the session-closed error; any other non-`200` status terminates
the loop with an error naming the literal status line; only `200`
proceeds to decoding a tunneled request. -/
theorem connectAndServeStep_dispatch (resp : PollResponse) :
    (resp.statusCode = 204 →
      connectAndServeStep resp = ClientStep.nextPoll resp.xSession false) ∧
    (resp.statusCode = 410 →
      connectAndServeStep resp = ClientStep.exitLoop ErrSessionClosed) ∧
    (resp.statusCode ≠ 204 → resp.statusCode ≠ 410 → resp.statusCode ≠ 200 →
      connectAndServeStep resp = ClientStep.exitLoop resp.statusLine) ∧
    (resp.statusCode = 200 →
      connectAndServeStep resp = ClientStep.decodeTunneled resp.xSession) := by
  refine ⟨?_, ?_, ?_, ?_⟩
  · intro h
    simp [connectAndServeStep, h]
  · intro h
    simp [connectAndServeStep, h]
  · intro h1 h2 h3
    simp [connectAndServeStep, h1, h2, h3]
  · intro h
    simp [connectAndServeStep, h]

/-- Witness for C6 at the four kinds of responses. -/
theorem connectAndServeStep_dispatch_witness :
    connectAndServeStep
      { statusCode := 204, statusLine := "204 No Content", xSession := "abc" }
      = ClientStep.nextPoll "abc" false ∧
    connectAndServeStep
      { statusCode := 410, statusLine := "410 Gone", xSession := "abc" }
      = ClientStep.exitLoop ErrSessionClosed ∧
    connectAndServeStep
      { statusCode := 500, statusLine := "500 ISE", xSession := "abc" }
      = ClientStep.exitLoop "500 ISE" ∧
    connectAndServeStep
      { statusCode := 200, statusLine := "200 OK", xSession := "abc" }
      = ClientStep.decodeTunneled "abc" :=
  ⟨(connectAndServeStep_dispatch
      { statusCode := 204, statusLine := "204 No Content", xSession := "abc" }).1
      rfl,
   (connectAndServeStep_dispatch
      { statusCode := 410, statusLine := "410 Gone", xSession := "abc" }).2.1
      rfl,
   (connectAndServeStep_dispatch
      { statusCode := 500, statusLine := "500 ISE", xSession := "abc" }).2.2.1
      (by decide) (by decide) (by decide),
   (connectAndServeStep_dispatch
      { statusCode := 200, statusLine := "200 OK", xSession := "abc" }).2.2.2
      rfl⟩

/-! ## C7 — the pending slot is empty at 204 and 410 -/

theorem servePollPhase_pending_none (parseDur : String → Option Int)
    (durStr : Int → String) (serialize : Nat → String) (minT maxT : Int)
    (s1 : Session) (pre : List ReplyEvent) (inp : PollInput)
    (hp : s1.PendingRequest = none)
    (h : (servePollPhase parseDur durStr serialize minT maxT s1 pre inp).2.status
           = 204 ∨
         (servePollPhase parseDur durStr serialize minT maxT s1 pre inp).2.status
           = 410) :
    (servePollPhase parseDur durStr serialize minT maxT s1 pre inp).1.PendingRequest
      = none := by
  unfold servePollPhase at h ⊢
  rcases hr : resolveTimeout parseDur durStr minT maxT inp.xTimeout with
    msg | ⟨t, warns⟩
  · rw [hr] at h
    rcases h with h | h
    · exact absurd (show (400 : Nat) = 204 from h) (by decide)
    · exact absurd (show (400 : Nat) = 410 from h) (by decide)
  · rw [hr] at h
    rcases hev : inp.event with _ | req | _
    · exact hp
    · rcases hwe : inp.writeErr with _ | e
      · rw [hev, hwe] at h
        rcases h with h | h
        · exact absurd (show (200 : Nat) = 204 from h) (by decide)
        · exact absurd (show (200 : Nat) = 410 from h) (by decide)
      · exact hp
    · exact hp

/-- C7: for every poll and every session state, the pending slot is
empty at the moment the handler answers `204 No Content` or
`410 Gone`: those statuses are only produced by the rendezvous phase,
which is reached only with a drained (empty) pending slot, and neither
the timer arm nor the closed arm records an originator. -/
theorem serveHTTP_pending_none_at_204_410 (parseDur : String → Option Int)
    (durStr : Int → String) (serialize : Nat → String) (minT maxT : Int)
    (s : Session) (inp : PollInput)
    (h : (serveHTTP parseDur durStr serialize minT maxT s inp).2.status = 204 ∨
         (serveHTTP parseDur durStr serialize minT maxT s inp).2.status = 410) :
    (serveHTTP parseDur durStr serialize minT maxT s inp).1.PendingRequest
      = none := by
  unfold serveHTTP at h ⊢
  rcases hp : s.PendingRequest with _ | p
  · rw [hp] at h
    exact servePollPhase_pending_none parseDur durStr serialize minT maxT
      s [] inp hp h
  · rw [hp] at h
    rcases hb : inp.body with respId | e
    · rw [hb] at h
      exact servePollPhase_pending_none parseDur durStr serialize minT maxT
        { s with PendingRequest := none }
        [ReplyEvent.sendResponse p.responseCh respId,
         ReplyEvent.closeChannel p.responseCh] inp rfl h
    · rw [hb] at h
      rcases h with h | h
      · exact absurd (show (400 : Nat) = 204 from h) (by decide)
      · exact absurd (show (400 : Nat) = 410 from h) (by decide)

/-- Witness for C7: a fresh session polled with the timer elapsing is
answered `204` and its pending slot is empty. -/
theorem serveHTTP_pending_none_at_204_410_witness :
    (serveHTTP parse0 dur0 ser0 0 (2 * timeMinute) Session.new
        { body := DecodeResult.ok 0, xTimeout := none,
          event := REvent.timerElapsed,
          writeErr := none }).1.PendingRequest = none :=
  serveHTTP_pending_none_at_204_410 parse0 dur0 ser0 0 (2 * timeMinute)
    Session.new
    { body := DecodeResult.ok 0, xTimeout := none,
      event := REvent.timerElapsed, writeErr := none }
    (Or.inl (by decide))

/-! ## C8 — the bytes the response writer emits -/

theorem runRW_of_headerSent (statusText : Nat → String)
    (rw : ResponseWriter) (h : rw.headerSent = true) (ops : List RWOp) :
    runRW statusText rw ops = { rw with sink := rw.sink ++ writePayloads ops } := by
  induction ops generalizing rw with
  | nil =>
    simp [runRW, writePayloads]
  | cons op rest ih =>
    cases op with
    | write b =>
      rw [runRW]
      rw [ih (rw.Write statusText b) (by simp [ResponseWriter.Write, h])]
      simp [ResponseWriter.Write, h, String.append_assoc, writePayloads]
    | writeHeader c =>
      rw [runRW]
      rw [ih (rw.WriteHeader statusText c)
            (by simp [ResponseWriter.WriteHeader, h])]
      simp [ResponseWriter.WriteHeader, h, writePayloads]

/-- C8: a first `Write` with no prior `WriteHeader` forces header
emission with default status `200 OK`, and over the whole remaining
call sequence the bytes emitted to the sink are exactly the status
line `HTTP/1.1 <code> <reason>\r\n`, the header block (one
`Name: Value\r\n` per header), a blank `\r\n`, then the bytes passed
to `Write` in order (later `WriteHeader` calls emit nothing). -/
theorem responseWriter_first_write_emits (statusText : Nat → String)
    (hdrs : List (String × String)) (b : String) (rest : List RWOp) :
    (runRW statusText { sink := "", header := hdrs, headerSent := false }
        (RWOp.write b :: rest)).sink =
      statusLine statusText 200 ++ headerBlock hdrs ++ "\r\n" ++ b ++
        writePayloads rest := by
  rw [runRW]
  rw [runRW_of_headerSent statusText
        (ResponseWriter.Write statusText
          { sink := "", header := hdrs, headerSent := false } b)
        (by simp [ResponseWriter.Write, ResponseWriter.WriteHeader])
        rest]
  simp [ResponseWriter.Write, ResponseWriter.WriteHeader,
    String.append_assoc]

/-! ## C10 — `WriteHeader` is effective at most once -/

/-- C10: the first `WriteHeader` (explicit, or implicit through the
first `Write`) emits the status line, header block and blank line and
marks headers sent; on a writer whose headers are already sent,
`WriteHeader` with any status code writes nothing and changes no
state, so a second `WriteHeader` after any first one is the identity
and the emitted status code is determined solely by the first call. -/
theorem writeHeader_at_most_once (statusText : Nat → String)
    (rw : ResponseWriter) (c c2 : Nat) :
    (rw.headerSent = false →
      rw.WriteHeader statusText c =
        { sink := rw.sink ++ statusLine statusText c ++ headerBlock rw.header
            ++ "\r\n",
          header := rw.header, headerSent := true }) ∧
    (rw.headerSent = true → rw.WriteHeader statusText c = rw) ∧
    (rw.WriteHeader statusText c).WriteHeader statusText c2 =
      rw.WriteHeader statusText c := by
  refine ⟨?_, ?_, ?_⟩
  · intro h
    simp [ResponseWriter.WriteHeader, h]
  · intro h
    simp [ResponseWriter.WriteHeader, h]
  · by_cases h : rw.headerSent
    · simp [ResponseWriter.WriteHeader, h]
    · simp [ResponseWriter.WriteHeader, h]

/-- Witness for C10 on a fresh writer with one header: the first
`WriteHeader 418` emits, and a following `WriteHeader 500` is the
identity. -/
theorem writeHeader_at_most_once_witness :
    ResponseWriter.WriteHeader statusText0
        { sink := "", header := [("X-Foo", "Bar")], headerSent := false } 418 =
      { sink := "" ++ statusLine statusText0 418 ++ headerBlock [("X-Foo", "Bar")]
          ++ "\r\n",
        header := [("X-Foo", "Bar")], headerSent := true } ∧
    (ResponseWriter.WriteHeader statusText0
        { sink := "", header := [("X-Foo", "Bar")], headerSent := false }
        418).WriteHeader statusText0 500 =
      ResponseWriter.WriteHeader statusText0
        { sink := "", header := [("X-Foo", "Bar")], headerSent := false } 418 :=
  ⟨(writeHeader_at_most_once statusText0
      { sink := "", header := [("X-Foo", "Bar")], headerSent := false }
      418 500).1 rfl,
   (writeHeader_at_most_once statusText0
      { sink := "", header := [("X-Foo", "Bar")], headerSent := false }
      418 500).2.2⟩

end ReverseHttp
